import Mathlib

/-!
Verification of the DeFi-Wizzard frontend state management: the chat page
(sliding-window transcript, optimistic send, history seeding) and the
investment-survey modal (data loading, form pre-fill, submission and result
modal). Handlers are embedded as pure functions over explicit state; an
awaited API call is passed in as an `Except` value standing for the settled
promise, and each handler reports the requests it issued, the diagnostic
lines it logged and any rejection it let propagate.
-/

/-- A chat message as used by the chat page: a role, text content, an ISO-8601
timestamp and an optional map of action names attached to assistant
messages. -/
structure Message where
  role : String
  content : String
  timestamp : String
  functions : Option (List String) := none
deriving DecidableEq

/-- The messagesPerPage constant of the chat page. -/
def messagesPerPage : Nat := 20

/-- The appendMessage updater of the chat page: copy the previous transcript,
and when its length has reached twice the page size perform two shift
operations (dropping the two oldest entries) before pushing the new
message. -/
def appendMessage (prev : List Message) (m : Message) : List Message :=
  let current := if messagesPerPage * 2 ≤ prev.length then prev.tail.tail else prev
  current ++ [m]

/-- One entry of the paginated chat history response. -/
structure ChatHistoryEntry where
  messages : List Message
deriving DecidableEq

/-- Response shape of api.chat.messages. -/
structure ChatHistoryResponse where
  entries : List ChatHistoryEntry
deriving DecidableEq

/-- The transcript seeding computation inside loadPage:
data.entries.reverse traversed with flatMap over each entry, reversing the
messages of every entry. -/
def seedMessages (data : ChatHistoryResponse) : List Message :=
  data.entries.reverse.flatMap (fun entry => entry.messages.reverse)

/-- The newest-first flattening of all messages of a response, stated from the
specification for comparison with seedMessages. -/
def flattenNewestFirst (data : ChatHistoryResponse) : List Message :=
  data.entries.flatMap (fun entry => entry.messages)

/-- Mutable state of the chat page relevant to the claims: the input box, the
transcript and the loading flag. -/
structure ChatState where
  input : String
  messages : List Message
  isLoading : Bool
deriving DecidableEq

/-- Whitespace characters removed by the JavaScript trim method on strings:
the ECMA-262 WhiteSpace code points (tab, vertical tab, form feed, space,
no-break space, zero width no-break space, the Ogham space mark U+1680, the
Unicode space separators U+2000 through U+200A, U+202F, U+205F and U+3000)
together with the LineTerminator code points (line feed, carriage return,
line separator U+2028 and paragraph separator U+2029). -/
def jsWhitespace (c : Char) : Bool :=
  c = ' ' || c = '\t' || c = '\n' || c = '\r' || c = '\x0b' || c = '\x0c' ||
  c = '\u00A0' || c = '\u1680' || (0x2000 ≤ c.val && c.val ≤ 0x200A) ||
  c = '\u2028' || c = '\u2029' || c = '\u202F' || c = '\u205F' ||
  c = '\u3000' || c = '\uFEFF'

/-- Model of the JavaScript trim method: drop leading and trailing whitespace
characters. -/
def jsTrim (s : String) : String :=
  ⟨((s.data.dropWhile jsWhitespace).reverse.dropWhile jsWhitespace).reverse⟩

/-- Outcome of running the chat send handler: the resulting state, the
sendMessage requests issued (user id paired with the message text) and the
pending rejection when the awaited call rejected with no handler. -/
structure ChatSendOutcome where
  state : ChatState
  requests : List (String × String)
  rejection : Option String
deriving DecidableEq

/-- The handleSendMessage handler of the chat page, with the sendMessage call
it makes inlined. It returns without any action when the trimmed input is
empty; with a known user it clears the input, optimistically appends the
locally-built user message, issues api.chat.sendMessage and, when that call
resolves, appends the reply; a rejection propagates with no rollback. The
parameter now is the current ISO timestamp and resp the settled result of
the awaited api.chat.sendMessage call. -/
def handleSendMessage (user : Option String) (now : String) (s : ChatState)
    (resp : Except String Message) : ChatSendOutcome :=
  if jsTrim s.input = "" then ⟨s, [], none⟩
  else
    match user with
    | none => ⟨s, [], none⟩
    | some u =>
      let userMessage : Message := { role := "user", content := s.input, timestamp := now }
      let s1 : ChatState := { s with input := "", messages := appendMessage s.messages userMessage }
      match resp with
      | Except.ok reply =>
        ⟨{ s1 with messages := appendMessage s1.messages reply }, [(u, s.input)], none⟩
      | Except.error e => ⟨s1, [(u, s.input)], some e⟩

/-- Outcome of loadPage: the resulting state and the pending rejection when
the history fetch rejected. -/
structure ChatLoadOutcome where
  state : ChatState
  rejection : Option String
deriving DecidableEq

/-- The loadPage handler of the chat page: set the loading flag, await
api.chat.messages, seed the transcript from the response and clear the flag.
There is no catch or finally block, so a rejection leaves the flag set and
the transcript untouched. -/
def loadPage (s : ChatState) (resp : Except String ChatHistoryResponse) : ChatLoadOutcome :=
  let s0 : ChatState := { s with isLoading := true }
  match resp with
  | Except.ok data => ⟨{ s0 with messages := seedMessages data, isLoading := false }, none⟩
  | Except.error e => ⟨s0, some e⟩

/-- Transcripts reachable from a given seeded transcript by repeated
appendMessage steps. -/
inductive ReachableFrom (init : List Message) : List Message → Prop
  | seed : ReachableFrom init init
  | step (msgs : List Message) (m : Message) :
      ReachableFrom init msgs → ReachableFrom init (appendMessage msgs m)

/-- Transcript states reachable on the chat page: seeded by loadPage from some
fetched history page and thereafter mutated only by appendMessage. -/
def ReachableChat (msgs : List Message) : Prop :=
  ∃ data : ChatHistoryResponse, ReachableFrom (seedMessages data) msgs

/-- Values of the five survey form fields question1 through question5. -/
structure FormValues where
  question1 : String
  question2 : String
  question3 : String
  question4 : String
  question5 : String
deriving DecidableEq

/-- Accessor for a form field by its 1-indexed position, used to state the
claims about field mappings. -/
def questionField (v : FormValues) : Nat → String
  | 1 => v.question1
  | 2 => v.question2
  | 3 => v.question3
  | 4 => v.question4
  | 5 => v.question5
  | _ => ""

/-- The JavaScript expression that reads an array slot and falls back to the
empty string when the slot is absent or its string is falsy. -/
def jsOrEmpty (x : Option String) : String :=
  match x with
  | some v => if v = "" then "" else v
  | none => ""

/-- The mapAnswersToFormValues helper of the survey modal. -/
def mapAnswersToFormValues (answers : List String) : FormValues :=
  { question1 := jsOrEmpty answers[0]?
  , question2 := jsOrEmpty answers[1]?
  , question3 := jsOrEmpty answers[2]?
  , question4 := jsOrEmpty answers[3]?
  , question5 := jsOrEmpty answers[4]? }

/-- Body of the POST request submitting survey answers. -/
structure SurveyAnswersRequest where
  user_id : String
  question_1 : String
  question_2 : String
  question_3 : String
  question_4 : String
  question_5 : String
deriving DecidableEq

/-- Response of api.survey.getAnswers. -/
structure SurveyAnswersResponse where
  answers : List String
deriving DecidableEq

/-- Response of api.survey.submitAnswers. -/
structure SurveySubmitResponse where
  summary : String
deriving DecidableEq

/-- The API requests the survey modal can issue. -/
inductive SurveyRequest
  | getQuestions
  | getAnswers (user : String)
  | submitAnswers (body : SurveyAnswersRequest)
deriving DecidableEq

/-- State of the survey modal relevant to the claims. inputModalOpen models
the open prop of the input modal as driven through the onClose callback;
formValues holds the current form field values that onFinish hands to
handleSubmit. -/
structure SurveyState where
  loading : Bool
  questions : List String
  savedAnswers : Option SurveyAnswersResponse
  summaryModalOpen : Bool
  summaryData : String
  inputModalOpen : Bool
  formValues : FormValues
deriving DecidableEq

/-- Outcome of a survey handler: the resulting state, the console error lines
logged and the API requests issued. -/
structure SurveyEffect where
  state : SurveyState
  log : List String
  requests : List SurveyRequest
deriving DecidableEq

/-- The request body handleSubmit builds from the form values and the user
identity. -/
def buildAnswers (user : String) (v : FormValues) : SurveyAnswersRequest :=
  { user_id := user
  , question_1 := v.question1
  , question_2 := v.question2
  , question_3 := v.question3
  , question_4 := v.question4
  , question_5 := v.question5 }

/-- The loadData handler of the survey modal: set loading, issue the question
fetch and the saved-answer fetch concurrently, store both results on
success, log the error on failure and clear loading in a finally block. The
parameter result is the settled join of the two awaited responses. -/
def loadData (user : String) (s : SurveyState)
    (result : Except String (List String × SurveyAnswersResponse)) : SurveyEffect :=
  let s0 : SurveyState := { s with loading := true }
  let withResult : SurveyState × List String :=
    match result with
    | Except.ok (qs, ans) => ({ s0 with questions := qs, savedAnswers := some ans }, [])
    | Except.error e => (s0, ["Error loading survey data: " ++ e])
  ⟨{ withResult.1 with loading := false }, withResult.2,
    [SurveyRequest.getQuestions, SurveyRequest.getAnswers user]⟩

/-- The handleSubmit handler of the survey modal: return at once without a
resolved user; otherwise build the request from the form values, set
loading, await api.survey.submitAnswers, and on success store the summary,
close the input modal through onClose and open the result modal; on failure
log the error; loading is cleared in a finally block either way. -/
def handleSubmit (user : Option String) (s : SurveyState)
    (result : Except String SurveySubmitResponse) : SurveyEffect :=
  match user with
  | none => ⟨s, [], []⟩
  | some u =>
    let body := buildAnswers u s.formValues
    let s0 : SurveyState := { s with loading := true }
    let withResult : SurveyState × List String :=
      match result with
      | Except.ok r =>
        ({ s0 with summaryData := r.summary, inputModalOpen := false,
                   summaryModalOpen := true }, [])
      | Except.error e => (s0, ["Error submitting answers: " ++ e])
    ⟨{ withResult.1 with loading := false }, withResult.2, [SurveyRequest.submitAnswers body]⟩

/-- Content rendered in the body of the result modal. -/
inductive SummaryModalContent
  | markdown (text : String)
  | pending
deriving DecidableEq

/-- Render choice of the result modal body: the markdown rendering of the
summary when summaryData is truthy, otherwise the pending spinner. -/
def summaryModalContent (summaryData : String) : SummaryModalContent :=
  if summaryData = "" then SummaryModalContent.pending
  else SummaryModalContent.markdown summaryData

/-- A concrete user message used in witnesses and counterexamples. -/
def sampleMessage : Message :=
  { role := "user", content := "hello", timestamp := "2024-01-01T00:00:00Z" }

/-- A concrete assistant message used in witnesses. -/
def sampleReply : Message :=
  { role := "assistant", content := "hi", timestamp := "2024-01-01T00:00:01Z" }

/-- A fetched history page whose flattened message count exceeds twice the
page size. -/
def oversizedPage : ChatHistoryResponse :=
  ⟨[⟨List.replicate (2 * messagesPerPage + 1) sampleMessage⟩]⟩

/-- A small fetched history page with a single message. -/
def smallPage : ChatHistoryResponse :=
  ⟨[⟨[sampleMessage]⟩]⟩

/-- A concrete survey state used in witnesses. -/
def sampleSurveyState : SurveyState :=
  { loading := false
  , questions := ["q1", "q2", "q3", "q4", "q5"]
  , savedAnswers := none
  , summaryModalOpen := false
  , summaryData := ""
  , inputModalOpen := true
  , formValues := ⟨"a1", "a2", "a3", "a4", "a5"⟩ }

/-- A concrete chat state with a whitespace-only input, including Unicode
whitespace (ideographic space, line separator, zero width no-break space),
used in witnesses. -/
def blankInputChatState : ChatState :=
  ⟨"  \t\n\u3000\u2028\uFEFF ", [sampleMessage], false⟩

/-- A concrete chat state with a non-empty input, used in witnesses. -/
def pendingInputChatState : ChatState :=
  ⟨" hi ", [sampleMessage], false⟩

/-- The user message handleSendMessage builds locally from the pending input
state at a fixed timestamp. -/
def pendingUserMessage : Message :=
  { role := "user", content := " hi ", timestamp := "2024-01-01T00:00:03Z" }

theorem tail_tail_eq_drop_two (l : List Message) : l.tail.tail = l.drop 2 := by
  cases l with
  | nil => rfl
  | cons a t =>
    cases t with
    | nil => rfl
    | cons b u => rfl

theorem length_appendMessage_le (prev : List Message) (m : Message)
    (h : prev.length ≤ 2 * messagesPerPage) :
    (appendMessage prev m).length ≤ 2 * messagesPerPage := by
  unfold appendMessage
  by_cases hc : messagesPerPage * 2 ≤ prev.length
  · rw [if_pos hc, tail_tail_eq_drop_two]
    simp only [List.length_append, List.length_drop, List.length_cons, List.length_nil]
    simp only [messagesPerPage] at h hc ⊢
    omega
  · rw [if_neg hc]
    simp only [List.length_append, List.length_cons, List.length_nil]
    simp only [messagesPerPage] at h hc ⊢
    omega

theorem mem_appendMessage (prev : List Message) (m : Message) : m ∈ appendMessage prev m := by
  unfold appendMessage
  by_cases hc : messagesPerPage * 2 ≤ prev.length
  · rw [if_pos hc]; simp
  · rw [if_neg hc]; simp

/-- Claim C1, counterexample: the transcript bound can be exceeded by a
reachable state, because loadPage seeds the transcript with the full
flattened page and nothing bounds the flattened message count of a fetched
page; a page flattening to 41 messages seeds a 41-entry transcript. -/
theorem c1_counterexample :
    ReachableChat (seedMessages oversizedPage) ∧
    2 * messagesPerPage < (seedMessages oversizedPage).length :=
  ⟨⟨oversizedPage, ReachableFrom.seed⟩, by decide⟩

/-- Claim C1, amended: provided the transcript seeded by loadPage has at most
2 × pageSize entries, every state then reachable through appendMessage has
at most 2 × pageSize entries (40 with pageSize 20). -/
theorem c1_transcript_bound (data : ChatHistoryResponse) (msgs : List Message)
    (hseed : (seedMessages data).length ≤ 2 * messagesPerPage)
    (h : ReachableFrom (seedMessages data) msgs) :
    msgs.length ≤ 2 * messagesPerPage := by
  induction h with
  | seed => exact hseed
  | step ms m hr ih => exact length_appendMessage_le ms m ih

/-- Witness for the amended claim C1 at a concrete one-message page and one
append step. -/
theorem c1_transcript_bound_witness :
    (seedMessages smallPage).length ≤ 2 * messagesPerPage ∧
    (appendMessage (seedMessages smallPage) sampleReply).length ≤ 2 * messagesPerPage :=
  ⟨by decide,
    c1_transcript_bound smallPage _ (by decide)
      (ReachableFrom.step _ _ ReachableFrom.seed)⟩

/-- Claim C2: when the transcript holds at least 2 × pageSize entries,
appendMessage drops exactly the two oldest entries before pushing the new
message; starting from exactly 2 × pageSize entries, appending a user and
then an assistant message yields the old transcript with its two oldest
entries removed, order preserved, followed by the two new messages, and the
result again holds exactly 2 × pageSize entries. -/
theorem c2_appendMessage_evicts (prev : List Message) (m1 m2 : Message)
    (h : 2 * messagesPerPage ≤ prev.length) :
    appendMessage prev m1 = prev.drop 2 ++ [m1] ∧
    (prev.length = 2 * messagesPerPage →
      appendMessage (appendMessage prev m1) m2 = prev.drop 2 ++ [m1, m2] ∧
      (appendMessage (appendMessage prev m1) m2).length = 2 * messagesPerPage) := by
  have hc : messagesPerPage * 2 ≤ prev.length := by
    simp only [messagesPerPage] at h ⊢; omega
  have part1 : appendMessage prev m1 = prev.drop 2 ++ [m1] := by
    unfold appendMessage
    rw [if_pos hc, tail_tail_eq_drop_two]
  refine ⟨part1, fun heq => ?_⟩
  have hno : ¬ messagesPerPage * 2 ≤ (prev.drop 2 ++ [m1]).length := by
    simp only [List.length_append, List.length_drop, List.length_cons, List.length_nil]
    simp only [messagesPerPage] at heq ⊢
    omega
  have part2 : appendMessage (prev.drop 2 ++ [m1]) m2 = prev.drop 2 ++ [m1, m2] := by
    unfold appendMessage
    rw [if_neg hno, List.append_assoc]
    rfl
  rw [part1, part2]
  refine ⟨rfl, ?_⟩
  simp only [List.length_append, List.length_drop, List.length_cons, List.length_nil]
  simp only [messagesPerPage] at heq ⊢
  omega

/-- Witness for claim C2 at a concrete 40-entry transcript. -/
theorem c2_appendMessage_evicts_witness :
    2 * messagesPerPage ≤ (List.replicate 40 sampleMessage).length ∧
    (appendMessage (List.replicate 40 sampleMessage) sampleMessage =
        (List.replicate 40 sampleMessage).drop 2 ++ [sampleMessage] ∧
      ((List.replicate 40 sampleMessage).length = 2 * messagesPerPage →
        appendMessage (appendMessage (List.replicate 40 sampleMessage) sampleMessage) sampleReply =
            (List.replicate 40 sampleMessage).drop 2 ++ [sampleMessage, sampleReply] ∧
          (appendMessage (appendMessage (List.replicate 40 sampleMessage) sampleMessage)
              sampleReply).length = 2 * messagesPerPage)) :=
  ⟨by decide, c2_appendMessage_evicts (List.replicate 40 sampleMessage)
    sampleMessage sampleReply (by decide)⟩

/-- Claim C3: the transcript seeded by loadPage equals the reversal of the
newest-first flattening of the response, and whenever the flattened response
is newest-first with respect to a recency order on messages, the seeded
transcript is chronological (oldest-first) with respect to it. -/
theorem c3_seed_chronological (data : ChatHistoryResponse) (R : Message → Message → Prop)
    (h : (flattenNewestFirst data).Pairwise (fun a b => R b a)) :
    seedMessages data = (flattenNewestFirst data).reverse ∧
    (seedMessages data).Pairwise R := by
  have heq : seedMessages data = (flattenNewestFirst data).reverse := by
    unfold seedMessages flattenNewestFirst
    rw [List.reverse_flatMap]
    rfl
  refine ⟨heq, ?_⟩
  rw [heq, List.pairwise_reverse]
  exact h

/-- Witness for claim C3 at a concrete two-entry page, newest first, with
recency read off the timestamp length. -/
theorem c3_seed_chronological_witness :
    (flattenNewestFirst ⟨[⟨[{ sampleMessage with timestamp := "4444" },
        { sampleMessage with timestamp := "333" }]⟩,
      ⟨[{ sampleMessage with timestamp := "22" },
        { sampleMessage with timestamp := "1" }]⟩]⟩).Pairwise
      (fun a b => b.timestamp.length ≤ a.timestamp.length) ∧
    (seedMessages ⟨[⟨[{ sampleMessage with timestamp := "4444" },
        { sampleMessage with timestamp := "333" }]⟩,
      ⟨[{ sampleMessage with timestamp := "22" },
        { sampleMessage with timestamp := "1" }]⟩]⟩ =
      (flattenNewestFirst ⟨[⟨[{ sampleMessage with timestamp := "4444" },
          { sampleMessage with timestamp := "333" }]⟩,
        ⟨[{ sampleMessage with timestamp := "22" },
          { sampleMessage with timestamp := "1" }]⟩]⟩).reverse ∧
      (seedMessages ⟨[⟨[{ sampleMessage with timestamp := "4444" },
          { sampleMessage with timestamp := "333" }]⟩,
        ⟨[{ sampleMessage with timestamp := "22" },
          { sampleMessage with timestamp := "1" }]⟩]⟩).Pairwise
        (fun a b => a.timestamp.length ≤ b.timestamp.length)) :=
  ⟨by decide,
    c3_seed_chronological _ (fun a b => a.timestamp.length ≤ b.timestamp.length) (by decide)⟩

/-- Claim C4: when the survey data load or the answer submission rejects, the
error is logged, the loading flag ends cleared, exactly the original
requests were issued (two concurrent fetches for the load, one submission
for the submit, never a retry), and every other component of the survey
state is unchanged: the input modal stays open, the result modal stays
closed, and the stored summary and form values keep their prior values. -/
theorem c4_error_clears_loading_only (u : String) (s : SurveyState) (e1 e2 : String) :
    loadData u s (Except.error e1) =
      ⟨{ s with loading := false }, ["Error loading survey data: " ++ e1],
        [SurveyRequest.getQuestions, SurveyRequest.getAnswers u]⟩ ∧
    handleSubmit (some u) s (Except.error e2) =
      ⟨{ s with loading := false }, ["Error submitting answers: " ++ e2],
        [SurveyRequest.submitAnswers (buildAnswers u s.formValues)]⟩ :=
  ⟨rfl, rfl⟩

/-- Claim C5: for every validated submission (all five form fields non-empty)
with a resolved user identity, the request handleSubmit issues maps form
field questionN exactly to request field question_N for N in 1..5 and sets
user_id to the user identity. -/
theorem c5_request_field_mapping (u : String) (s : SurveyState)
    (r : Except String SurveySubmitResponse)
    (hvalid : s.formValues.question1 ≠ "" ∧ s.formValues.question2 ≠ "" ∧
      s.formValues.question3 ≠ "" ∧ s.formValues.question4 ≠ "" ∧
      s.formValues.question5 ≠ "") :
    (handleSubmit (some u) s r).requests =
      [SurveyRequest.submitAnswers
        { user_id := u
        , question_1 := s.formValues.question1
        , question_2 := s.formValues.question2
        , question_3 := s.formValues.question3
        , question_4 := s.formValues.question4
        , question_5 := s.formValues.question5 }] := by
  cases r <;> rfl

/-- Witness for claim C5 at a concrete filled-in survey state. -/
theorem c5_request_field_mapping_witness :
    (sampleSurveyState.formValues.question1 ≠ "" ∧
      sampleSurveyState.formValues.question2 ≠ "" ∧
      sampleSurveyState.formValues.question3 ≠ "" ∧
      sampleSurveyState.formValues.question4 ≠ "" ∧
      sampleSurveyState.formValues.question5 ≠ "") ∧
    (handleSubmit (some "user-1") sampleSurveyState
        (Except.ok ⟨"ok"⟩)).requests =
      [SurveyRequest.submitAnswers
        { user_id := "user-1"
        , question_1 := sampleSurveyState.formValues.question1
        , question_2 := sampleSurveyState.formValues.question2
        , question_3 := sampleSurveyState.formValues.question3
        , question_4 := sampleSurveyState.formValues.question4
        , question_5 := sampleSurveyState.formValues.question5 }] :=
  ⟨by decide,
    c5_request_field_mapping "user-1" sampleSurveyState (Except.ok ⟨"ok"⟩) (by decide)⟩

theorem jsOrEmpty_of_length_le (l : List String) (i : Nat) (h : l.length ≤ i) :
    jsOrEmpty l[i]? = "" := by
  rw [List.getElem?_eq_none h]
  rfl

theorem jsOrEmpty_eq_getD (l : List String) (i : Nat) : jsOrEmpty l[i]? = l.getD i "" := by
  rw [List.getD_eq_getElem?_getD]
  cases h : l[i]? with
  | none => simp [jsOrEmpty]
  | some v =>
    by_cases hv : v = "" <;> simp [jsOrEmpty, hv]

/-- Claim C6: given fetched answers of length k with k ≤ 5, the pre-fill sets
field questionN to the fetched answer at position N for every N ≤ k, and to
the empty string for every N with k < N ≤ 5. -/
theorem c6_prefill_defaults (answers : List String) (k : Nat)
    (hk : answers.length = k) (h5 : k ≤ 5) :
    (∀ n, 1 ≤ n → n ≤ k →
      questionField (mapAnswersToFormValues answers) n = answers.getD (n - 1) "") ∧
    (∀ n, k < n → n ≤ 5 →
      questionField (mapAnswersToFormValues answers) n = "") := by
  constructor
  · intro n h1 h2
    have hn5 : n ≤ 5 := le_trans h2 h5
    interval_cases n <;>
      simp [questionField, mapAnswersToFormValues, jsOrEmpty_eq_getD]
  · intro n h1 h2
    have h1n : 1 ≤ n := by omega
    interval_cases n <;>
      exact jsOrEmpty_of_length_le answers _ (by omega)

/-- Witness for claim C6 at three fetched answers. -/
theorem c6_prefill_defaults_witness :
    (["a", "b", "c"] : List String).length = 3 ∧ 3 ≤ 5 ∧
    ((∀ n, 1 ≤ n → n ≤ 3 →
      questionField (mapAnswersToFormValues ["a", "b", "c"]) n =
        (["a", "b", "c"] : List String).getD (n - 1) "") ∧
    (∀ n, 3 < n → n ≤ 5 →
      questionField (mapAnswersToFormValues ["a", "b", "c"]) n = "")) :=
  ⟨by decide, by decide, c6_prefill_defaults ["a", "b", "c"] 3 (by decide) (by decide)⟩

/-- Claim C7: for an input that trims to the empty string, the chat send
handler performs no action: the state is returned unchanged, no sendMessage
request is issued and nothing rejects. -/
theorem c7_blank_input_no_action (user : Option String) (now : String) (s : ChatState)
    (resp : Except String Message) (h : jsTrim s.input = "") :
    handleSendMessage user now s resp = ⟨s, [], none⟩ := by
  unfold handleSendMessage
  rw [if_pos h]

/-- Witness for claim C7 at a whitespace-only input. -/
theorem c7_blank_input_no_action_witness :
    jsTrim blankInputChatState.input = "" ∧
    handleSendMessage (some "user-1") "2024-01-01T00:00:02Z"
        blankInputChatState (Except.ok sampleReply) =
      ⟨blankInputChatState, [], none⟩ :=
  ⟨by decide,
    c7_blank_input_no_action (some "user-1") "2024-01-01T00:00:02Z"
      blankInputChatState (Except.ok sampleReply) (by decide)⟩

/-- Claim C8: when the submission resolves with a summary, handleSubmit stores
it, closes the input modal, opens the result modal, and the result modal
body renders the markdown of that summary rather than the pending spinner
whenever the summary is non-empty. -/
theorem c8_submit_success (u : String) (s : SurveyState) (r : SurveySubmitResponse)
    (h : r.summary ≠ "") :
    (handleSubmit (some u) s (Except.ok r)).state.summaryData = r.summary ∧
    (handleSubmit (some u) s (Except.ok r)).state.inputModalOpen = false ∧
    (handleSubmit (some u) s (Except.ok r)).state.summaryModalOpen = true ∧
    summaryModalContent (handleSubmit (some u) s (Except.ok r)).state.summaryData =
      SummaryModalContent.markdown r.summary := by
  refine ⟨rfl, rfl, rfl, ?_⟩
  show summaryModalContent r.summary = SummaryModalContent.markdown r.summary
  unfold summaryModalContent
  rw [if_neg h]

/-- Witness for claim C8 at a concrete markdown summary. -/
theorem c8_submit_success_witness :
    ("# Result" : String) ≠ "" ∧
    ((handleSubmit (some "user-1") sampleSurveyState
        (Except.ok ⟨"# Result"⟩)).state.summaryData = "# Result" ∧
      (handleSubmit (some "user-1") sampleSurveyState
        (Except.ok ⟨"# Result"⟩)).state.inputModalOpen = false ∧
      (handleSubmit (some "user-1") sampleSurveyState
        (Except.ok ⟨"# Result"⟩)).state.summaryModalOpen = true ∧
      summaryModalContent (handleSubmit (some "user-1") sampleSurveyState
          (Except.ok ⟨"# Result"⟩)).state.summaryData =
        SummaryModalContent.markdown "# Result") :=
  ⟨by decide,
    c8_submit_success "user-1" sampleSurveyState ⟨"# Result"⟩ (by decide)⟩

/-- Claim C9: when the assistant-reply request rejects after a non-empty
submission, the optimistically appended user message stays in the
transcript, the input stays cleared, exactly one send request was issued,
and the rejection propagates with no rollback or handling. -/
theorem c9_reply_rejection_keeps_user_message (u : String) (now : String) (s : ChatState)
    (e : String) (h : jsTrim s.input ≠ "") :
    handleSendMessage (some u) now s (Except.error e) =
      ⟨{ s with
          input := "",
          messages := appendMessage s.messages
            { role := "user", content := s.input, timestamp := now } },
        [(u, s.input)], some e⟩ ∧
    ({ role := "user", content := s.input, timestamp := now } : Message) ∈
      (handleSendMessage (some u) now s (Except.error e)).state.messages := by
  have heq : handleSendMessage (some u) now s (Except.error e) =
      ⟨{ s with
          input := "",
          messages := appendMessage s.messages
            { role := "user", content := s.input, timestamp := now } },
        [(u, s.input)], some e⟩ := by
    unfold handleSendMessage
    rw [if_neg h]
  refine ⟨heq, ?_⟩
  rw [heq]
  exact mem_appendMessage s.messages _

/-- Witness for claim C9 at a concrete non-empty input and a rejected reply. -/
theorem c9_reply_rejection_keeps_user_message_witness :
    jsTrim pendingInputChatState.input ≠ "" ∧
    (handleSendMessage (some "user-1") "2024-01-01T00:00:03Z"
        pendingInputChatState (Except.error "network") =
      ⟨⟨"", appendMessage pendingInputChatState.messages pendingUserMessage, false⟩,
        [("user-1", " hi ")], some "network"⟩ ∧
      pendingUserMessage ∈
        (handleSendMessage (some "user-1") "2024-01-01T00:00:03Z"
          pendingInputChatState (Except.error "network")).state.messages) :=
  ⟨by decide,
    c9_reply_rejection_keeps_user_message "user-1" "2024-01-01T00:00:03Z"
      pendingInputChatState "network" (by decide)⟩

/-- Claim C10: when the history fetch rejects during loadPage, the transcript
and the input are unchanged, the loading flag remains set (there is no catch
or finally), and the rejection propagates. -/
theorem c10_load_rejection_keeps_loading (s : ChatState) (e : String) :
    (loadPage s (Except.error e)).state.messages = s.messages ∧
    (loadPage s (Except.error e)).state.isLoading = true ∧
    (loadPage s (Except.error e)).state.input = s.input ∧
    (loadPage s (Except.error e)).rejection = some e :=
  ⟨rfl, rfl, rfl, rfl⟩
